import Mathlib

/-!
Verification development for the openedx-to-offline-bundle scraper
(`openedx2zim`).  The definitions below are shallow embeddings of the
functions of `scraper.py`, `utils.py` and `xblocks_extractor/problem.py`;
external collaborators (hashlib, the HTTP layer, the S3 object store, the
grading endpoint, slugify) are passed in as oracle parameters, matching the
"external collaborator" boundary of the specification.
-/

namespace Openedx2Zim

/-- Occurrence test on character lists: does `needle` occur as a
contiguous run of `hay`? -/
def strContainsL : List Char → List Char → Bool
  | [], needle => needle.isEmpty
  | hay@(_ :: t), needle => needle.isPrefixOf hay || strContainsL t needle

/-- Substring test used for the literal Python test `"youtube" in url`. -/
def strContains (hay needle : String) : Bool :=
  strContainsL hay.data needle.data

/-- The characters of `l` strictly before the first occurrence of `c`
(all of `l` when `c` does not occur): `l.split(c)[0]`. -/
def takeUntilChar (c : Char) : List Char → List Char
  | [] => []
  | x :: xs => if x = c then [] else x :: takeUntilChar c xs

/-- The characters of `l` strictly after the last occurrence of `c`
(all of `l` when `c` does not occur). -/
def afterLastChar (c : Char) (l : List Char) : List Char :=
  l.foldl (fun acc x => if x = c then [] else acc ++ [x]) []

/-- Model of `os.path.join(a, b)` for a relative second component. -/
def pathJoin (a b : String) : String :=
  if a = "" then b else a ++ "/" ++ b

/-- Extension part of `os.path.splitext` applied to the last path
component: the suffix starting at the last dot of the basename (leading
dots of the basename do not count). -/
def splitextExt (p : String) : String :=
  let base := afterLastChar '/' p.data
  let stem := base.dropWhile (fun ch => ch = '.')
  if stem.contains '.' then String.mk ('.' :: afterLastChar '.' stem) else ""

/-! ## Dependency localizer (`Openedx2Zim.dl_dependencies`, img loop)

The localizer walks the references of a markup fragment.  We embed the
`<img>` loop of `scraper.py:dl_dependencies` (lines 366-390); the other
reference kinds (`a`, `link`, `script`, `source`) follow the identical
per-reference skeleton.  The cryptographic hash (`hashlib.sha256(...)
.hexdigest()`) and `download_file` are externals, passed as parameters:
`dl src = .error e` models `download_file` raising an exception `e`,
which the loop catches with its `try/except`. -/

/-- One reference-bearing element: its URL attribute, when present. -/
structure Img where
  srcAttr : Option String
deriving DecidableEq, Repr

/-- State threaded through the localizer: the set of already-materialized
destination files, the URLs for which the download pipeline was invoked,
and the logged warnings. -/
structure LocState where
  existing : List String
  fetched : List String
  warnings : List String
deriving DecidableEq, Repr

/-- Derived local filename: hash of the source URL plus its original
extension (`hashlib.sha256(str(src).encode()).hexdigest() + ext`). -/
def localFilename (hash : String → String) (src : String) : String :=
  hash src ++ extOf src
where
  /-- `ext = os.path.splitext(src.split("?")[0])[1]` -/
  extOf (src : String) : String :=
    splitextExt (String.mk (takeUntilChar '?' src.data))

/-- One iteration of the `<img>` loop of `dl_dependencies`: derive the
local filename, download only when the destination file does not already
exist (catching and logging any failure), then rewrite the `src`
attribute to the local relative path.  The rewrite happens after the
conditional, outside the `try/except`. -/
def processOneImg (hash : String → String) (dl : String → Except String Unit)
    (path folder : String) (st : LocState) (img : Img) : Img × LocState :=
  match img.srcAttr with
  | none => (img, st)
  | some src =>
    let filename := localFilename hash src
    let out := pathJoin path filename
    let st1 :=
      if out ∈ st.existing then st
      else
        let st0 : LocState := { st with fetched := st.fetched ++ [src] }
        match dl src with
        | Except.ok _ => { st0 with existing := st0.existing ++ [out] }
        | Except.error e =>
            { st0 with warnings := st0.warnings ++ [e ++ " : error with " ++ src] }
    ({ srcAttr := some (pathJoin folder filename) }, st1)

/-- The whole `<img>` loop: fold `processOneImg` over the fragment's
image elements, threading the on-disk state. -/
def processImgs (hash : String → String) (dl : String → Except String Unit)
    (path folder : String) : LocState → List Img → List Img × LocState
  | st, [] => ([], st)
  | st, img :: rest =>
    let r1 := processOneImg hash dl path folder st img
    let r2 := processImgs hash dl path folder r1.2 rest
    (r1.1 :: r2.1, r2.2)

/-- Claim C1 as stated by the specification: when the download of a
reference fails (the pipeline call raises), the reference's URL attribute
is left unresolved, still pointing at the original remote URL. -/
def C1Claim : Prop :=
  ∀ (hash : String → String) (dl : String → Except String Unit)
    (path folder src e : String) (st : LocState),
    dl src = Except.error e →
    pathJoin path (localFilename hash src) ∉ st.existing →
    (processOneImg hash dl path folder st ⟨some src⟩).1.srcAttr = some src

/-! ## Content-tree builder (`Openedx2Zim.parse_course_xblocks`)

Embedding of the inner `make_objects` recursion (scraper.py lines
222-273).  The raw unit descriptors come from the external API; `slug`
models the external `slugify`.  The recursion is given an explicit fuel
argument; exhausting the fuel (`ParseErr.outOfFuel`) for every fuel value
models non-termination of the Python recursion.  `sys.exit(1)` on an
unsupported type is modelled by `ParseErr.fatalExit`, and a missing key in
the xblock mapping by `ParseErr.keyError` (Python's `KeyError`).  The
`uuid.uuid4()` stable id is external randomness and is not modelled. -/

/-- Raw xblock descriptor as delivered by the course API
(`self.course_xblocks[current_id]`). -/
structure XB where
  xtype : String
  displayName : String
  descendants : Option (List String)
  studentViewUrl : String
deriving DecidableEq, Repr

/-- Extractor object created by `make_objects`: which extractor class was
instantiated, the xblock's type and path data, and the recursively built
descendants. -/
structure Obj where
  extractor : String
  xtype : String
  xblockPath : List String
  rootUrl : String
  descendants : Option (List Obj)

/-- Scraper-wide state mutated by `make_objects`:
`self.xblock_extractor_objects`, `self.head_course_xblock`, and the
warnings logged along the way. -/
structure ParseState where
  objects : List Obj
  headCourse : Option Obj
  warnings : List String

/-- Failure modes of the builder. -/
inductive ParseErr where
  | outOfFuel
  | keyError (id : String)
  | fatalExit (msg : String)
deriving DecidableEq, Repr

/-- The extractor registry `XBLOCK_EXTRACTORS` (scraper.py lines 61-77),
mapping xblock type tags to extractor class names. -/
def XBLOCK_EXTRACTORS : List (String × String) :=
  [("course", "Course"), ("chapter", "Chapter"), ("sequential", "Sequential"),
   ("vertical", "Vertical"), ("video", "Video"), ("libcast_xblock", "Libcast"),
   ("html", "Html"), ("problem", "Problem"), ("discussion", "Discussion"),
   ("qualtricssurvey", "Html"), ("freetextresponse", "FreeTextResponse"),
   ("grademebutton", "Unavailable"), ("drag-and-drop-v2", "DragAndDropV2"),
   ("lti", "Lti"), ("unavailable", "Unavailable")]

/-- The error logged before `sys.exit(1)` on an unsupported xblock type. -/
def unsupportedMsg (ty url : String) : String :=
  "Unsupported xblock: " ++ ty ++ " URL: " ++ url

/-- The warning logged when an unsupported xblock type is ignored. -/
def ignoredMsg (ty url : String) : String :=
  "Ignoring unsupported xblock: " ++ ty ++ " URL: " ++ url

/-- Extractor dispatch of `make_objects` (scraper.py lines 241-265): a
registered type selects its extractor; an unregistered type either aborts
the process (`sys.exit(1)`, ignore-policy off) or logs a warning and
substitutes the `unavailable` extractor (ignore-policy on). -/
def dispatchExtractor (ignoreMissing : Bool) (ty url : String) :
    Except ParseErr (String × List String) :=
  match List.lookup ty XBLOCK_EXTRACTORS with
  | some ex => Except.ok (ex, [])
  | none =>
    if !ignoreMissing then Except.error (ParseErr.fatalExit (unsupportedMsg ty url))
    else
      Except.ok ((List.lookup "unavailable" XBLOCK_EXTRACTORS).getD "",
                 [ignoredMsg ty url])

/-- The recursive `make_objects` (scraper.py lines 223-270): look the
current id up in the mapping, extend the path with the slugified display
name and the root url with one ascent segment, recursively build all
descendants (threading the scraper state left to right), dispatch on the
xblock type, record the head course xblock and append the new object to
the flat extractor list.  The Python code carries no visited set; the
fuel argument is the embedding's only termination device. -/
def makeObjects (slug : String → String) (blocks : List (String × XB))
    (ignoreMissing : Bool) :
    Nat → List String → String → String → ParseState →
    Except ParseErr (Obj × ParseState)
  | 0, _, _, _, _ => Except.error ParseErr.outOfFuel
  | Nat.succ fuel, curPath, curId, rootUrl, st =>
    match List.lookup curId blocks with
    | none => Except.error (ParseErr.keyError curId)
    | some xb =>
      let xblockPath := curPath ++ [slug xb.displayName]
      let rootUrl2 := rootUrl ++ "../"
      let descRes : Except ParseErr (Option (List Obj) × ParseState) :=
        match xb.descendants with
        | none => Except.ok (none, st)
        | some ids =>
          (ids.foldl
            (fun acc nid =>
              match acc with
              | Except.error e => Except.error e
              | Except.ok (objs, st2) =>
                match makeObjects slug blocks ignoreMissing fuel
                    xblockPath nid rootUrl2 st2 with
                | Except.error e => Except.error e
                | Except.ok (o, st3) => Except.ok (objs ++ [o], st3))
            (Except.ok ([], st))).map (fun p => (some p.1, p.2))
      match descRes with
      | Except.error e => Except.error e
      | Except.ok (descs, st2) =>
        match dispatchExtractor ignoreMissing xb.xtype xb.studentViewUrl with
        | Except.error e => Except.error e
        | Except.ok (ex, warns) =>
          let obj : Obj := ⟨ex, xb.xtype, xblockPath, rootUrl2, descs⟩
          let st3 : ParseState := { st2 with warnings := st2.warnings ++ warns }
          let st4 : ParseState :=
            if xb.xtype = "course" then { st3 with headCourse := some obj } else st3
          let st5 : ParseState := { st4 with objects := st4.objects ++ [obj] }
          Except.ok (obj, st5)

/-- A unit mapping whose descendants relation is cyclic: the unit `"a"`
lists itself as its own descendant. -/
def cyclicBlocks : List (String × XB) :=
  [("a", ⟨"course", "A", some ["a"], "http://inst/a"⟩)]

/-! ## Download pipeline (`download_file` and its helpers)

Embedding of `download_from_cache`, `upload_to_cache`,
`downlaod_form_url`, `download_from_youtube`, `convert_video`,
`optimize_image`, `optimize_file` and `download_file` (scraper.py lines
611-753).  The S3 object store, the HTTP layer (`save_large_file`),
`youtube_dl`, `reencode` and the image-optimization binaries are external
collaborators; their outcomes for the single URL/key under consideration
are supplied in an oracle record `Net`.  `get_meta_from_url` belongs to
this repository but is absent from the sources at hand; following the
specification it yields the content-version token and a detected file
type for the URL, both carried in `Net`. -/

/-- Metadata of a cache entry: content-version token and optimizer
version. -/
structure S3Entry where
  version : Option String
  optimizerVersion : Option String
deriving DecidableEq, Repr

/-- The remote optimization cache, restricted to the single key under
consideration: the stored entry (if any) and whether payload transfers
succeed. -/
structure S3 where
  entry : Option S3Entry
  downloadOk : Bool
  uploadOk : Bool
deriving DecidableEq, Repr

/-- `s3_storage.has_object(key)`. -/
def s3HasObject (s3 : S3) : Bool :=
  s3.entry.isSome

/-- Modelled from the spec: the external cache protocol's
`hasObjectMatchingMetadata(key, metadata)` (spec section 6) — a hit
requires exact match of `version` and, unless the requested
`optimizer_version` is null (the "any optimizer version" policy),
exact match of `optimizer_version` as well. -/
def s3HasObjectMatching (s3 : S3) (want : S3Entry) : Bool :=
  match s3.entry with
  | none => false
  | some e =>
    e.version == want.version &&
      (want.optimizerVersion == none ||
        e.optimizerVersion == want.optimizerVersion)

/-- The `filetype` derived from the destination suffix in
`download_from_cache`/`upload_to_cache`:
`"jpeg" if fpath.suffix in [".jpeg", ".jpg"] else fpath.suffix[1:]`. -/
def filetypeOf (suffix : String) : String :=
  if suffix = ".jpeg" ∨ suffix = ".jpg" then "jpeg" else suffix.drop 1

/-- `Openedx2Zim.download_from_cache` (scraper.py lines 611-631): returns
whether the asset was downloaded from the S3 cache, plus the log lines it
emitted.  `meta = none` models a falsy content-version token.
`optVers` is the `OPTIMIZER_VERSIONS` table of `constants.py` (absent
from the sources at hand), mapping a file type to the current optimizer
version. -/
def download_from_cache (useAnyOptimizedVersion : Bool)
    (optVers : String → String) (s3 : S3) (suffix : String)
    (meta : Option String) : Bool × List String :=
  let filetype := filetypeOf suffix
  if !s3HasObject s3 ∨ meta = none then (false, [])
  else
    let metaDict : S3Entry :=
      ⟨meta, if useAnyOptimizedVersion then none else some (optVers filetype)⟩
    if !s3HasObjectMatching s3 metaDict then (false, [])
    else if s3.downloadOk then (true, ["downloaded from cache"])
    else (false, ["failed to download from cache"])

/-- `Openedx2Zim.upload_to_cache` (scraper.py lines 633-646): attach the
content-version token and the current optimizer version as metadata and
upload, catching any upload failure.  Returns whether it uploaded, the
log lines, and the metadata sent (if any). -/
def upload_to_cache (optVers : String → String) (s3 : S3) (suffix : String)
    (meta : Option String) : Bool × List String × Option S3Entry :=
  let filetype := filetypeOf suffix
  if meta = none ∨ filetype = "" then (false, [], none)
  else
    let metaDict : S3Entry := ⟨meta, some (optVers filetype)⟩
    if s3.uploadOk then (true, ["uploaded to cache"], some metaDict)
    else (false, ["failed to upload to cache"], some metaDict)

/-- Where `downlaod_form_url` materialized the fetched bytes: directly at
the destination path, or at a sibling temporary path carrying the
detected file type's extension. -/
inductive FetchedAt where
  | dest
  | temp (suffix : String)
deriving DecidableEq, Repr

/-- `Openedx2Zim.downlaod_form_url` (scraper.py lines 648-666): choose a
temporary download path when the detected file type differs from the
destination extension, run `save_large_file` catching its failure, and
return the download path on success or `none` (after logging) on
failure. -/
def downlaod_form_url (saveOk : Bool) (destSuffix : String)
    (filetype : Option String) : Option FetchedAt × List String :=
  let downloadPath : FetchedAt :=
    match filetype with
    | none => FetchedAt.dest
    | some ft =>
      if destSuffix.drop 1 ≠ ft ∧ ¬(ft = "jpg" ∧ destSuffix.drop 1 = "jpeg")
      then FetchedAt.temp ("." ++ ft) else FetchedAt.dest
  if saveOk then (some downloadPath, [])
  else (none, ["Error while running save_large_file()"])

/-- Modelled from the spec: `VIDEO_FORMATS` of `constants.py` (absent
from the sources at hand) — the two supported target video containers,
matching the `webm`/`mp4` choices of `download_from_youtube` and
`convert_video`. -/
def VIDEO_FORMATS : List String := ["mp4", "webm"]

/-- Modelled from the spec: `IMAGE_FORMATS` of `constants.py` (absent
from the sources at hand) — the raster formats handled by
`optimize_image`. -/
def IMAGE_FORMATS : List String := ["jpeg", "jpg", "png", "gif"]

/-- `Openedx2Zim.convert_video` (scraper.py lines 687-692): when the
source container differs from the configured video format or low quality
is forced, invoke `reencode` (with `failsafe=False`, so a failure
raises); otherwise do nothing and return Python `None`.  The result pairs
the function's return value (`.ok (some preset)` after a successful
re-encode, `.ok none` when no re-encode happens, `.error` when `reencode`
raises) with whether `reencode` was invoked. -/
def convert_video (videoFormat : String) (lowQuality reencodeOk : Bool)
    (srcSuffix1 : String) : Except String (Option String) × Bool :=
  if srcSuffix1 ≠ videoFormat ∨ lowQuality = true then
    let preset := if videoFormat = "webm" then "VideoWebmLow" else "VideoMp4Low"
    if reencodeOk then (Except.ok (some preset), true)
    else (Except.error "reencode failed", true)
  else (Except.ok none, false)

/-- `Openedx2Zim.optimize_image` (scraper.py lines 694-710): run the
format-specific optimizer binaries (which never raise — `exec_cmd`
catches) and report whether optimization succeeded; the function also
moves the source file onto the destination when the paths differ. -/
def optimize_image (jpegOk gifOk : Bool) (srcSuffix : String) : Bool :=
  if srcSuffix = ".jpeg" ∨ srcSuffix = ".jpg" then jpegOk
  else if srcSuffix = ".png" then true
  else if srcSuffix = ".gif" then gifOk
  else false

/-- Scraper configuration relevant to the download pipeline. -/
structure Cfg where
  s3Configured : Bool
  useAnyOptimizedVersion : Bool
  videoFormat : String
  lowQuality : Bool
deriving DecidableEq, Repr

/-- Oracle outcomes of the external collaborators for the URL/key under
consideration: the cache state, the result of `get_meta_from_url`
(content-version token and detected file type), and success of
`save_large_file`, `youtube_dl`, `reencode` and the image optimizer
binaries. -/
structure Net where
  s3 : S3
  meta : Option String
  filetype : Option String
  saveOk : Bool
  youtubeOk : Bool
  reencodeOk : Bool
  jpegOk : Bool
  gifOk : Bool
deriving DecidableEq, Repr

/-- Observable outcome of one `download_file` call.  `retval` is the
Python return value of the call (`none` models Python `None`;
`some b` would model an explicit boolean). -/
structure DFResult where
  retval : Option Bool
  cacheHit : Bool
  fetchAttempted : Bool
  reencodeAttempted : Bool
  uploadedToCache : Bool
  fileAtDest : Bool
  log : List String
deriving DecidableEq, Repr

/-- `Openedx2Zim.download_file` (scraper.py lines 729-753), together with
the `optimize_file` dispatch (lines 712-716) it calls.  Steps: consult
the cache when configured; on a miss fetch the raw resource (youtube
extractor or generic fetch); on fetch failure log and return; otherwise
optimize by type inside a `try/except` (catching i.a. a raising
`reencode`), upload to the cache when an optimization occurred, and in
the `finally` move the temporary file onto the destination when needed.
Every `return` of the Python function is a bare `return`, hence
`retval := none` on every path. -/
def download_file (cfg : Cfg) (optVers : String → String) (net : Net)
    (url : String) (destSuffix : String) : DFResult :=
  let isYoutube := strContains url "youtube"
  let cacheRes :=
    if cfg.s3Configured then
      download_from_cache cfg.useAnyOptimizedVersion optVers net.s3 destSuffix net.meta
    else (false, [])
  if cacheRes.1 then
    { retval := none, cacheHit := true, fetchAttempted := false,
      reencodeAttempted := false, uploadedToCache := false,
      fileAtDest := true, log := cacheRes.2 }
  else
    let fetched : Option FetchedAt × List String :=
      if isYoutube then
        if net.youtubeOk then (some FetchedAt.dest, [])
        else (none, ["Error while running youtube_dl"])
      else downlaod_form_url net.saveOk destSuffix net.filetype
    match fetched.1 with
    | none =>
      { retval := none, cacheHit := false, fetchAttempted := true,
        reencodeAttempted := false, uploadedToCache := false,
        fileAtDest := false,
        log := cacheRes.2 ++ fetched.2 ++
          ["Error while downloading file from URL " ++ url] }
    | some whereAt =>
      let srcSuffix : String :=
        match whereAt with
        | FetchedAt.dest => destSuffix
        | FetchedAt.temp s => s
      if srcSuffix.drop 1 ∈ VIDEO_FORMATS then
        let vid := convert_video cfg.videoFormat cfg.lowQuality net.reencodeOk
          (srcSuffix.drop 1)
        match vid.1 with
        | Except.error e =>
          -- the raising `reencode` is caught; the `finally` still moves a
          -- temporary source onto the missing destination
          { retval := none, cacheHit := false, fetchAttempted := true,
            reencodeAttempted := true, uploadedToCache := false,
            fileAtDest := true,
            log := cacheRes.2 ++ fetched.2 ++
              ["Error while optimizing: " ++ e] }
        | Except.ok optimizedVal =>
          let optimized := optimizedVal.isSome
          let up :=
            if cfg.s3Configured ∧ optimized then
              upload_to_cache optVers net.s3 destSuffix net.meta
            else (false, [], none)
          { retval := none, cacheHit := false, fetchAttempted := true,
            reencodeAttempted := vid.2, uploadedToCache := up.1,
            fileAtDest := true, log := cacheRes.2 ++ fetched.2 ++ up.2.1 }
      else if srcSuffix.drop 1 ∈ IMAGE_FORMATS then
        let optimized := optimize_image net.jpegOk net.gifOk srcSuffix
        let up :=
          if cfg.s3Configured ∧ optimized then
            upload_to_cache optVers net.s3 destSuffix net.meta
          else (false, [], none)
        { retval := none, cacheHit := false, fetchAttempted := true,
          reencodeAttempted := false, uploadedToCache := up.1,
          fileAtDest := true, log := cacheRes.2 ++ fetched.2 ++ up.2.1 }
      else
        -- other kinds pass through unoptimized; the `finally` moves a
        -- temporary file onto the destination when needed
        { retval := none, cacheHit := false, fetchAttempted := true,
          reencodeAttempted := false, uploadedToCache := false,
          fileAtDest := true, log := cacheRes.2 ++ fetched.2 }

/-- Claim C3 as stated by the specification: `download_file` returns a
boolean success result, and any failure surfaces as the value `false`. -/
def C3Claim : Prop :=
  ∀ (cfg : Cfg) (optVers : String → String) (net : Net)
    (url destSuffix : String),
    ∃ b : Bool, (download_file cfg optVers net url destSuffix).retval = some b

/-! ## Answer prober (`Problem.get_answers`)

Embedding of `check_problem_type_and_get_options` (problem.py lines
34-51) and `get_answers` (lines 96-161).  The grading endpoint
(`check_answer`, one POST per candidate) is an oracle `grade`; the
BeautifulSoup extraction of `get_html_replacement_content` is an oracle
`repl` applied to the response contents.  `write_answers_and_mark_available`
(lines 78-94) writes the accumulated answers to the side file and sets
`answers_available`; it is reached only when every probe returned a
recognized outcome, which the model captures by `persisted`. -/

/-- One form option (`<input type=radio>` / `<input type=checkbox>`):
its `name` and `id` attributes. -/
structure OptionTag where
  name : String
  oid : String
deriving DecidableEq, Repr

/-- Response of one grading probe (`problem_check`). -/
structure GradeResult where
  success : String
  contents : String
deriving DecidableEq, Repr

/-- `result["success"] in ["correct", "incorrect"]`. -/
def recognized (g : GradeResult) : Bool :=
  g.success == "correct" || g.success == "incorrect"

/-- `Problem.check_problem_type_and_get_options` (problem.py lines
34-51): radio options make a single-correct problem when more than one;
otherwise checkbox options make a multi-correct problem when more than
one and at most five; otherwise answers are not fetchable. -/
def check_problem_type_and_get_options (radios checkboxes : List OptionTag) :
    Bool × Option Bool × Option (List OptionTag) :=
  if radios.length > 1 then (true, some true, some radios)
  else if checkboxes.length > 1 ∧ checkboxes.length ≤ 5 then
    (true, some false, some checkboxes)
  else (false, none, none)

/-- `itertools.combinations(l, r)`: all size-`r` subsequences of `l`,
each preserving the order of `l`. -/
def combinations {α : Type} : Nat → List α → List (List α)
  | 0, _ => [[]]
  | _ + 1, [] => []
  | r + 1, x :: xs =>
    (combinations r xs).map (fun c => x :: c) ++ combinations (r + 1) xs

/-- The enumeration `for r in range(1, len(options_list) + 1):
for answer_candidate in itertools.combinations(options_list, r)`. -/
def allCombinations {α : Type} (l : List α) : List (List α) :=
  (List.range l.length).flatMap (fun r => combinations (r + 1) l)

/-- Combination key of the single-correct branch:
`answer_candidate.attrs.get("id")` of the lone candidate. -/
def singleKey (cand : List OptionTag) : String :=
  ((cand.map OptionTag.oid).headD "")

/-- Combination key of the multi-correct branch: the hyphen-joined,
order-preserving option ids. -/
def joinKey (cand : List OptionTag) : String :=
  String.intercalate "-" (cand.map OptionTag.oid)

/-- The probing loop shared by both branches of `get_answers`: submit
each candidate in turn; a recognized outcome records the replacement
content under the candidate's key and continues; any other outcome
logs an error and returns at once.  Result: the grading requests issued
(in order) and, when every probe was recognized, the accumulated answer
mapping (`none` models returning without reaching
`write_answers_and_mark_available`). -/
def probeList (grade : List OptionTag → GradeResult) (repl : String → String)
    (mkKey : List OptionTag → String) :
    List (List OptionTag) →
    List (List OptionTag) × Option (List (String × String))
  | [] => ([], some [])
  | c :: rest =>
    let g := grade c
    if recognized g then
      let r := probeList grade repl mkKey rest
      (c :: r.1, r.2.map (fun l => (mkKey c, repl g.contents) :: l))
    else ([c], none)

/-- Outcome of `Problem.get_answers` for one question: the grading
requests issued, the mapping persisted to the per-question side file
(when `write_answers_and_mark_available` ran), and the final
`answers_available` flag. -/
structure AnswersResult where
  requests : List (List OptionTag)
  persisted : Option (List (String × String))
  answersAvailable : Bool
deriving DecidableEq, Repr

/-- `Problem.get_answers` (problem.py lines 96-161): classify the
problem; on a single-correct problem probe each option individually, on
a multi-correct problem probe every non-empty combination; persist the
answers and mark them available only when probing ran to completion;
on a non-fetchable problem log a warning and do nothing. -/
def get_answers (grade : List OptionTag → GradeResult) (repl : String → String)
    (radios checkboxes : List OptionTag) : AnswersResult :=
  let t := check_problem_type_and_get_options radios checkboxes
  let answersFetchable := t.1
  let singleCorrect := t.2.1
  let optionsList := (t.2.2).getD []
  if answersFetchable then
    if singleCorrect = some true then
      let r := probeList grade repl singleKey (optionsList.map (fun o => [o]))
      ⟨r.1, r.2, (r.2).isSome⟩
    else
      let r := probeList grade repl joinKey (allCombinations optionsList)
      ⟨r.1, r.2, (r.2).isSome⟩
  else ⟨[], none, false⟩

/-! ## Supporting lemmas -/

lemma combinations_length {α : Type} : ∀ (l : List α) (r : Nat),
    (combinations r l).length = Nat.choose l.length r := by
  intro l
  induction l with
  | nil => intro r; cases r <;> simp [combinations]
  | cons x xs ih =>
    intro r
    cases r with
    | zero => simp [combinations]
    | succ r => simp [combinations, ih, Nat.choose_succ_succ, Nat.add_comm]

lemma listSumRange (f : Nat → Nat) : ∀ n : Nat,
    ((List.range n).map f).sum = ∑ i ∈ Finset.range n, f i := by
  intro n
  induction n with
  | zero => simp
  | succ m ih => rw [List.range_succ]; simp [ih, Finset.sum_range_succ]

lemma allCombinations_length {α : Type} (l : List α) :
    (allCombinations l).length = 2 ^ l.length - 1 := by
  have h1 : (allCombinations l).length
      = ((List.range l.length).map (fun r => Nat.choose l.length (r + 1))).sum := by
    rw [allCombinations, List.length_flatMap]
    exact congrArg List.sum
      (List.map_congr_left (fun r _ => by simp [combinations_length]))
  rw [h1, listSumRange]
  have h2 := Nat.sum_range_choose l.length
  have h3 := Finset.sum_range_succ' (fun i => Nat.choose l.length i) l.length
  rw [h2] at h3
  simp at h3
  omega

lemma probeList_all (grade : List OptionTag → GradeResult) (repl : String → String)
    (mkKey : List OptionTag → String) : ∀ cands : List (List OptionTag),
    (∀ c ∈ cands, recognized (grade c) = true) →
    probeList grade repl mkKey cands =
      (cands, some (cands.map (fun c => (mkKey c, repl (grade c).contents)))) := by
  intro cands
  induction cands with
  | nil => intro _; rfl
  | cons c rest ih =>
    intro h
    have hc : recognized (grade c) = true := h c (by simp)
    have hr := ih (fun d hd => h d (by simp [hd]))
    simp [probeList, hc, hr]

lemma probeList_abort (grade : List OptionTag → GradeResult) (repl : String → String)
    (mkKey : List OptionTag → String) : ∀ cands : List (List OptionTag),
    (∃ c ∈ (probeList grade repl mkKey cands).1, recognized (grade c) = false) →
    (probeList grade repl mkKey cands).2 = none ∧
    ∃ pre bad, (probeList grade repl mkKey cands).1 = pre ++ [bad] ∧
      (∀ c ∈ pre, recognized (grade c) = true) ∧ recognized (grade bad) = false := by
  intro cands
  induction cands with
  | nil => rintro ⟨c, hc, _⟩; simp [probeList] at hc
  | cons c rest ih =>
    rintro ⟨d, hd, hdbad⟩
    by_cases hc : recognized (grade c) = true
    · have hres : probeList grade repl mkKey (c :: rest)
          = (c :: (probeList grade repl mkKey rest).1,
             ((probeList grade repl mkKey rest).2).map
               (fun l => (mkKey c, repl (grade c).contents) :: l)) := by
        simp [probeList, hc]
      rw [hres] at hd ⊢
      simp only [List.mem_cons] at hd
      rcases hd with rfl | hd
      · rw [hc] at hdbad; exact absurd hdbad (by simp)
      · obtain ⟨h2, pre, bad, hsplit, hpre, hbad⟩ := ih ⟨d, hd, hdbad⟩
        refine ⟨by simp [h2], c :: pre, bad, by simp [hsplit], ?_, hbad⟩
        intro e he
        rcases List.mem_cons.mp he with rfl | he2
        · exact hc
        · exact hpre e he2
    · have hcf : recognized (grade c) = false := by
        cases hx : recognized (grade c) with
        | false => rfl
        | true => exact absurd hx hc
      have hres : probeList grade repl mkKey (c :: rest) = ([c], none) := by
        simp [probeList, hcf]
      rw [hres]
      exact ⟨rfl, [], c, by simp, by simp, hcf⟩

/-! ## Claim theorems: answer prober -/

/-- Claim C4: for every graded question whose probing runs to completion
with all outcomes recognized, a single-select question with N (N ≥ 2)
radio options causes exactly N grading requests (one per option, persisted
under each option id), and a multi-select question with N (2 ≤ N ≤ 5)
checkbox options causes exactly 2^N − 1 grading requests, one per
non-empty combination, persisted under the hyphen-joined, order-preserving
option ids. -/
theorem c4_probe_request_counts (grade : List OptionTag → GradeResult)
    (repl : String → String) (radios checkboxes : List OptionTag)
    (hall : ∀ cand, recognized (grade cand) = true) :
    (2 ≤ radios.length →
      (get_answers grade repl radios checkboxes).requests.length = radios.length ∧
      (get_answers grade repl radios checkboxes).persisted =
        some (radios.map (fun o => (o.oid, repl (grade [o]).contents)))) ∧
    (radios.length ≤ 1 → 2 ≤ checkboxes.length → checkboxes.length ≤ 5 →
      (get_answers grade repl radios checkboxes).requests.length
          = 2 ^ checkboxes.length - 1 ∧
      (get_answers grade repl radios checkboxes).persisted =
        some ((allCombinations checkboxes).map
          (fun c => (joinKey c, repl (grade c).contents)))) := by
  constructor
  · intro h2
    have hgt : radios.length > 1 := by omega
    have hp := probeList_all grade repl singleKey (radios.map (fun o => [o]))
      (fun c _ => hall c)
    simp [get_answers, check_problem_type_and_get_options, hgt, hp, singleKey]
  · intro h1 h2 h5
    have hng : ¬ radios.length > 1 := by omega
    have hcb : checkboxes.length > 1 ∧ checkboxes.length ≤ 5 := by omega
    have hp := probeList_all grade repl joinKey (allCombinations checkboxes)
      (fun c _ => hall c)
    simp [get_answers, check_problem_type_and_get_options, hng, hcb, hp,
      allCombinations_length]

/-- Claim C5: for every graded question, if any grading probe returns an
outcome other than "correct" or "incorrect", probing stops immediately
(the unrecognized probe is the last request issued), nothing is persisted
to the per-question side file, and `answers_available` remains false. -/
theorem c5_unrecognized_aborts (grade : List OptionTag → GradeResult)
    (repl : String → String) (radios checkboxes : List OptionTag)
    (h : ∃ c ∈ (get_answers grade repl radios checkboxes).requests,
      recognized (grade c) = false) :
    (get_answers grade repl radios checkboxes).persisted = none ∧
    (get_answers grade repl radios checkboxes).answersAvailable = false ∧
    ∃ pre bad, (get_answers grade repl radios checkboxes).requests = pre ++ [bad] ∧
      (∀ c ∈ pre, recognized (grade c) = true) ∧ recognized (grade bad) = false := by
  by_cases hgt : radios.length > 1
  · have e : get_answers grade repl radios checkboxes =
        ⟨(probeList grade repl singleKey (radios.map (fun o => [o]))).1,
         (probeList grade repl singleKey (radios.map (fun o => [o]))).2,
         ((probeList grade repl singleKey (radios.map (fun o => [o]))).2).isSome⟩ := by
      simp [get_answers, check_problem_type_and_get_options, hgt]
    rw [e] at h ⊢
    obtain ⟨h2, pre, bad, hsplit, hpre, hbad⟩ := probeList_abort _ _ _ _ h
    exact ⟨h2, by simp [h2], pre, bad, hsplit, hpre, hbad⟩
  · by_cases hcb : checkboxes.length > 1 ∧ checkboxes.length ≤ 5
    · have e : get_answers grade repl radios checkboxes =
          ⟨(probeList grade repl joinKey (allCombinations checkboxes)).1,
           (probeList grade repl joinKey (allCombinations checkboxes)).2,
           ((probeList grade repl joinKey (allCombinations checkboxes)).2).isSome⟩ := by
        simp [get_answers, check_problem_type_and_get_options, hgt, hcb]
      rw [e] at h ⊢
      obtain ⟨h2, pre, bad, hsplit, hpre, hbad⟩ := probeList_abort _ _ _ _ h
      exact ⟨h2, by simp [h2], pre, bad, hsplit, hpre, hbad⟩
    · have e : get_answers grade repl radios checkboxes = ⟨[], none, false⟩ := by
        simp [get_answers, check_problem_type_and_get_options, hgt, hcb]
      rw [e] at h
      simp at h

/-- Grading oracle that marks every candidate correct. -/
def gradeAllCorrect : List OptionTag → GradeResult := fun _ => ⟨"correct", "FB"⟩

/-- Grading oracle that returns an unrecognized outcome. -/
def gradeAllError : List OptionTag → GradeResult := fun _ => ⟨"error", ""⟩

/-- Three radio options of one choice group. -/
def radios3 : List OptionTag :=
  [⟨"g1", "g1_choice_0"⟩, ⟨"g1", "g1_choice_1"⟩, ⟨"g1", "g1_choice_2"⟩]

/-- Three checkbox options of one choice group. -/
def checkboxes3 : List OptionTag :=
  [⟨"h1", "h1_choice_0"⟩, ⟨"h1", "h1_choice_1"⟩, ⟨"h1", "h1_choice_2"⟩]

/-- Witness for C4: three radio options cause 3 grading requests; three
checkbox options cause 7 = 2^3 − 1 grading requests. -/
theorem c4_probe_request_counts_witness :
    (get_answers gradeAllCorrect id radios3 []).requests.length = 3 ∧
    (get_answers gradeAllCorrect id [] checkboxes3).requests.length = 7 :=
  ⟨((c4_probe_request_counts gradeAllCorrect id radios3 []
      (fun _ => rfl)).1 (by decide)).1,
   ((c4_probe_request_counts gradeAllCorrect id [] checkboxes3
      (fun _ => rfl)).2 (by decide) (by decide) (by decide)).1⟩

/-- Witness for C5: a probe returning "error" leaves nothing persisted
and answers unavailable. -/
theorem c5_unrecognized_aborts_witness :
    (get_answers gradeAllError id radios3 []).persisted = none ∧
    (get_answers gradeAllError id radios3 []).answersAvailable = false :=
  ⟨(c5_unrecognized_aborts gradeAllError id radios3 [] (by decide)).1,
   (c5_unrecognized_aborts gradeAllError id radios3 [] (by decide)).2.1⟩

/-! ## Claim theorems: dependency localizer -/

lemma processImgs_length (hash : String → String) (dl : String → Except String Unit)
    (path folder : String) : ∀ (imgs : List Img) (st : LocState),
    ((processImgs hash dl path folder st imgs).1).length = imgs.length := by
  intro imgs
  induction imgs with
  | nil => intro st; rfl
  | cons img rest ih => intro st; simp [processImgs, ih]

/-- Claim C1 is false on the code: even when the download of a reference
fails, `dl_dependencies` rewrites the reference's URL attribute to the
local filename — the assignment `img.attrib["src"] = src` sits after the
`try/except`, unconditionally.  Concretely, a fragment with one image at
`http://inst/a.png` whose download raises ends with the attribute rewritten
to `home/HASH.png`, not left at the original remote URL. -/
theorem c1_counterexample : ¬ C1Claim := by
  intro h
  have hc := h (fun _ => "HASH") (fun _ => Except.error "boom") "assets" "home"
    "http://inst/a.png" "boom" ⟨[], [], []⟩ rfl (by simp)
  revert hc
  decide

/-- Claim C1, amended: a per-reference download failure is caught and
logged with the offending URL and the rest of the fragment's references
are still processed (every image element yields an output element), but
the failed reference's URL attribute is nonetheless rewritten to the
local path of the (missing) file rather than left at the original remote
URL. -/
theorem c1_amended (hash : String → String) (dl : String → Except String Unit)
    (path folder src e : String) (st : LocState)
    (hfail : dl src = Except.error e)
    (hnew : pathJoin path (localFilename hash src) ∉ st.existing) :
    (processOneImg hash dl path folder st ⟨some src⟩).1.srcAttr
        = some (pathJoin folder (localFilename hash src)) ∧
    (processOneImg hash dl path folder st ⟨some src⟩).2.warnings
        = st.warnings ++ [e ++ " : error with " ++ src] ∧
    ∀ (imgs : List Img) (st2 : LocState),
      ((processImgs hash dl path folder st2 imgs).1).length = imgs.length := by
  refine ⟨?_, ?_, fun imgs st2 => processImgs_length hash dl path folder imgs st2⟩
  · simp [processOneImg, hfail, hnew]
  · simp [processOneImg, hfail, hnew]

/-- A stand-in for the external hash of the source URL. -/
def hash0 : String → String := fun _ => "HASH"

/-- A download pipeline whose invocation raises. -/
def dlFail : String → Except String Unit := fun _ => Except.error "boom"

/-- A download pipeline whose invocation succeeds. -/
def dlOk : String → Except String Unit := fun _ => Except.ok ()

/-- Witness for the amended C1: the failed download is logged and the
reference is rewritten to the local path. -/
theorem c1_amended_witness :
    (processOneImg hash0 dlFail "assets" "home" ⟨[], [], []⟩
        ⟨some "http://inst/a.png"⟩).1.srcAttr = some "home/HASH.png" ∧
    (processOneImg hash0 dlFail "assets" "home" ⟨[], [], []⟩
        ⟨some "http://inst/a.png"⟩).2.warnings
        = ["boom : error with http://inst/a.png"] := by
  have h := c1_amended hash0 dlFail "assets" "home" "http://inst/a.png" "boom"
    ⟨[], [], []⟩ rfl (by decide)
  exact ⟨h.1.trans (by decide), h.2.1.trans (by decide)⟩

/-- Claim C6: the derived local filename is a pure function of the source
URL (hash plus original extension); when the destination file already
exists the localizer performs zero invocations of the download pipeline
for that reference; and two references with the same source URL collapse
to a single download and identical rewritten attributes. -/
theorem c6_deterministic_idempotent (hash : String → String)
    (dl : String → Except String Unit) (path folder src : String) (st : LocState) :
    (pathJoin path (localFilename hash src) ∈ st.existing →
      (processOneImg hash dl path folder st ⟨some src⟩).2.fetched = st.fetched) ∧
    (dl src = Except.ok () → pathJoin path (localFilename hash src) ∉ st.existing →
      (processImgs hash dl path folder st [⟨some src⟩, ⟨some src⟩]).2.fetched
          = st.fetched ++ [src] ∧
      ((processImgs hash dl path folder st [⟨some src⟩, ⟨some src⟩]).1).map Img.srcAttr
          = [some (pathJoin folder (localFilename hash src)),
             some (pathJoin folder (localFilename hash src))]) := by
  constructor
  · intro hex
    simp [processOneImg, hex]
  · intro hok hnew
    constructor
    · simp [processImgs, processOneImg, hok, hnew]
    · simp [processImgs, processOneImg, hok, hnew]

/-- Witness for C6: with the destination file already on disk no download
happens; with two identical references exactly one download happens. -/
theorem c6_deterministic_idempotent_witness :
    (processOneImg hash0 dlOk "assets" "home" ⟨["assets/HASH.png"], [], []⟩
        ⟨some "http://inst/a.png"⟩).2.fetched = [] ∧
    (processImgs hash0 dlOk "assets" "home" ⟨[], [], []⟩
        [⟨some "http://inst/a.png"⟩, ⟨some "http://inst/a.png"⟩]).2.fetched
        = ["http://inst/a.png"] := by
  have h1 := (c6_deterministic_idempotent hash0 dlOk "assets" "home"
    "http://inst/a.png" ⟨["assets/HASH.png"], [], []⟩).1 (by decide)
  have h2 := ((c6_deterministic_idempotent hash0 dlOk "assets" "home"
    "http://inst/a.png" ⟨[], [], []⟩).2 rfl (by decide)).1
  exact ⟨h1, h2⟩

/-! ## Claim theorems: content-tree builder -/

/-- Claim C2 is contradicted by the code: `parse_course_xblocks` carries
no visited set.  On the cyclic unit mapping where `"a"` lists itself as a
descendant the recursion never completes: no fuel bound suffices, for any
slugifier, policy, starting path, root url or scraper state — the Python
original recurses forever instead of failing fast. -/
theorem c2_cycle_never_terminates : ∀ (slug : String → String)
    (ignoreMissing : Bool) (fuel : Nat) (curPath : List String)
    (rootUrl : String) (st : ParseState),
    makeObjects slug cyclicBlocks ignoreMissing fuel curPath "a" rootUrl st
      = Except.error ParseErr.outOfFuel := by
  intro slug ig fuel
  induction fuel with
  | zero => intros; rfl
  | succ n ih =>
    intro path rootUrl st
    have ih2 : ∀ (p : List String) (r : String) (s : ParseState),
        makeObjects slug
          [("a", ⟨"course", "A", some ["a"], "http://inst/a"⟩)] ig n p "a" r s =
          Except.error ParseErr.outOfFuel := by
      intro p r s
      simpa [cyclicBlocks] using ih p r s
    simp [makeObjects, cyclicBlocks, List.lookup, ih2, Except.map]

/-- A course whose root has two children: one of an arbitrary (unknown)
type `ty`, one of the supported type `html`. -/
def exampleBlocks (ty svUrl : String) : List (String × XB) :=
  [("root", ⟨"course", "Root", some ["bad", "good"], "http://inst/root"⟩),
   ("bad", ⟨ty, "Bad", none, svUrl⟩),
   ("good", ⟨"html", "Good", none, "http://inst/good"⟩)]

/-- Claim C9: a unit type outside the extractor registry aborts the run
immediately (`sys.exit(1)`) when the ignore-missing-xblocks policy is
off — also when reached mid-traversal, producing no extractor objects —
and with the policy on it is logged as a warning, an `Unavailable`
placeholder object is substituted, and the traversal continues past it
(the sibling and the parent are still built). -/
theorem c9_unknown_type (slug : String → String) (ty svUrl : String)
    (h : List.lookup ty XBLOCK_EXTRACTORS = none) :
    dispatchExtractor false ty svUrl
        = Except.error (ParseErr.fatalExit (unsupportedMsg ty svUrl)) ∧
    dispatchExtractor true ty svUrl
        = Except.ok ("Unavailable", [ignoredMsg ty svUrl]) ∧
    (∀ st : ParseState,
      makeObjects slug (exampleBlocks ty svUrl) false 3 [] "root" "../" st
        = Except.error (ParseErr.fatalExit (unsupportedMsg ty svUrl))) ∧
    (∀ st : ParseState,
      (makeObjects slug (exampleBlocks ty svUrl) true 3 [] "root" "../" st).map
          (fun p => (p.2.objects.map Obj.extractor, p.2.warnings))
        = Except.ok (st.objects.map Obj.extractor ++ ["Unavailable", "Html", "Course"],
                     st.warnings ++ [ignoredMsg ty svUrl])) := by
  have hty : ty ≠ "course" := by
    intro e
    subst e
    exact absurd h (by decide)
  have hu : (List.lookup "unavailable" XBLOCK_EXTRACTORS).getD "" = "Unavailable" := by
    decide
  have hd1 : dispatchExtractor false ty svUrl
      = Except.error (ParseErr.fatalExit (unsupportedMsg ty svUrl)) := by
    simp [dispatchExtractor, h]
  have hd2 : dispatchExtractor true ty svUrl
      = Except.ok ("Unavailable", [ignoredMsg ty svUrl]) := by
    simp [dispatchExtractor, h, hu]
  have hg : dispatchExtractor true "html" "http://inst/good" = Except.ok ("Html", []) := rfl
  have hr : dispatchExtractor true "course" "http://inst/root"
      = Except.ok ("Course", []) := rfl
  refine ⟨hd1, hd2, ?_, ?_⟩
  · intro st
    simp [makeObjects, exampleBlocks, List.lookup, hd1, Except.map]
  · intro st
    simp [makeObjects, exampleBlocks, List.lookup, hd2, hg, hr, hty, Except.map]

/-- Witness for C9 at the unregistered type `poll`: ignore-policy off is
fatal; ignore-policy on substitutes `Unavailable`, warns, and still
builds the `html` sibling and the `course` root. -/
theorem c9_unknown_type_witness :
    dispatchExtractor false "poll" "http://inst/bad"
        = Except.error (ParseErr.fatalExit (unsupportedMsg "poll" "http://inst/bad")) ∧
    (makeObjects id (exampleBlocks "poll" "http://inst/bad") true 3 [] "root" "../"
        ⟨[], none, []⟩).map
        (fun p => (p.2.objects.map Obj.extractor, p.2.warnings))
      = Except.ok (["Unavailable", "Html", "Course"],
                   [ignoredMsg "poll" "http://inst/bad"]) := by
  have h := c9_unknown_type id "poll" "http://inst/bad" (by decide)
  exact ⟨h.1, (h.2.2.2 ⟨[], none, []⟩).trans (by simp)⟩

/-! ## Claim theorems: download pipeline -/

lemma download_file_retval (cfg : Cfg) (optVers : String → String) (net : Net)
    (url destSuffix : String) :
    (download_file cfg optVers net url destSuffix).retval = none := by
  simp only [download_file]
  repeat' split
  all_goals rfl

lemma download_file_miss_fetches (cfg : Cfg) (optVers : String → String) (net : Net)
    (url destSuffix : String)
    (hmiss : (if cfg.s3Configured then
        download_from_cache cfg.useAnyOptimizedVersion optVers net.s3 destSuffix net.meta
      else (false, [])).1 = false) :
    (download_file cfg optVers net url destSuffix).cacheHit = false ∧
    (download_file cfg optVers net url destSuffix).fetchAttempted = true := by
  simp only [download_file]
  rw [hmiss]
  simp only [Bool.false_eq_true, if_false]
  repeat' split
  all_goals exact ⟨rfl, rfl⟩

/-- A configuration without a remote optimization cache. -/
def cfgPlain : Cfg := ⟨false, false, "mp4", false⟩

/-- A stand-in for the `OPTIMIZER_VERSIONS` table. -/
def optVers0 : String → String := fun _ => "opt-v1"

/-- External outcomes where the raw fetch (`save_large_file`) fails. -/
def netFetchFail : Net := ⟨⟨none, true, true⟩, none, none, false, false, true, true, true⟩

/-- Claim C3 is false on the code: `download_file` never returns a
boolean.  Every `return` in it is bare, so the call evaluates to Python
`None` on every path — in particular a failing fetch does not surface as
the value `false`. -/
theorem c3_counterexample : ¬ C3Claim := by
  intro h
  obtain ⟨b, hb⟩ := h cfgPlain optVers0 netFetchFail "http://inst/doc.pdf" ".pdf"
  have hn : (download_file cfgPlain optVers0 netFetchFail
      "http://inst/doc.pdf" ".pdf").retval = none := rfl
  rw [hn] at hb
  exact Option.noConfusion hb

/-- Claim C3, amended: failures of the modelled steps (fetch,
optimization, cache transfer) are caught inside `download_file` — on
every combination of outcomes the call returns, with Python `None`
rather than a boolean — and a fetch failure is logged with the URL;
callers can detect failure only through the destination file, not
through the return value. -/
theorem c3_amended (cfg : Cfg) (optVers : String → String) (net : Net)
    (url destSuffix : String)
    (h1 : cfg.s3Configured = false) (h2 : strContains url "youtube" = false)
    (h3 : net.saveOk = false) :
    (∀ (cfg2 : Cfg) (optVers2 : String → String) (net2 : Net) (url2 sfx2 : String),
      (download_file cfg2 optVers2 net2 url2 sfx2).retval = none) ∧
    ("Error while downloading file from URL " ++ url)
        ∈ (download_file cfg optVers net url destSuffix).log := by
  refine ⟨fun cfg2 ov2 net2 u2 s2 => download_file_retval cfg2 ov2 net2 u2 s2, ?_⟩
  simp [download_file, downlaod_form_url, h1, h2, h3]

/-- Witness for the amended C3: a failing generic fetch yields return
value `None` and the logged URL-bearing error. -/
theorem c3_amended_witness :
    (download_file cfgPlain optVers0 netFetchFail "http://inst/doc.pdf" ".pdf").retval
        = none ∧
    ("Error while downloading file from URL " ++ "http://inst/doc.pdf")
        ∈ (download_file cfgPlain optVers0 netFetchFail "http://inst/doc.pdf" ".pdf").log := by
  have h := c3_amended cfgPlain optVers0 netFetchFail "http://inst/doc.pdf" ".pdf"
    rfl rfl rfl
  exact ⟨h.1 cfgPlain optVers0 netFetchFail "http://inst/doc.pdf" ".pdf", h.2⟩

/-- Claim C7: a cache entry whose stored `version` does not match the
expected content-version token, or whose `optimizer_version` does not
match the current optimizer version while the use-any-optimized-version
policy is off, makes `download_from_cache` return `false` (with no error
logged), and `download_file` then falls through to direct acquisition of
the original resource. -/
theorem c7_mismatch_is_miss (useAny : Bool) (optVers : String → String)
    (s3 : S3) (e : S3Entry) (destSuffix v : String)
    (hstore : s3.entry = some e)
    (hmm : e.version ≠ some v ∨
      (useAny = false ∧ e.optimizerVersion ≠ some (optVers (filetypeOf destSuffix)))) :
    download_from_cache useAny optVers s3 destSuffix (some v) = (false, []) ∧
    (∀ (cfg : Cfg) (net : Net) (url : String),
      cfg.s3Configured = true → cfg.useAnyOptimizedVersion = useAny →
      net.s3 = s3 → net.meta = some v →
      (download_file cfg optVers net url destSuffix).cacheHit = false ∧
      (download_file cfg optVers net url destSuffix).fetchAttempted = true) := by
  have hmiss : download_from_cache useAny optVers s3 destSuffix (some v) = (false, []) := by
    rcases hmm with hv | ⟨hua, ho⟩
    · have hb : (e.version == some v) = false := by
        simp [hv]
      simp [download_from_cache, s3HasObject, hstore, s3HasObjectMatching, hb]
    · subst hua
      have hb : (e.optimizerVersion == some (optVers (filetypeOf destSuffix))) = false := by
        simp [ho]
      simp [download_from_cache, s3HasObject, hstore, s3HasObjectMatching, hb]
  refine ⟨hmiss, fun cfg net url hc hu hs hm => ?_⟩
  exact download_file_miss_fetches cfg optVers net url destSuffix
    (by rw [if_pos hc, hu, hs, hm, hmiss])

/-- A cache holding an entry with an outdated version and optimizer. -/
def s3WithEntry : S3 := ⟨some ⟨some "v-old", some "opt-v0"⟩, true, true⟩

/-- A configuration with the remote optimization cache enabled. -/
def cfgS3 : Cfg := ⟨true, false, "mp4", false⟩

/-- External outcomes where the cached entry's version token mismatches
the current one. -/
def netCacheMismatch : Net := ⟨s3WithEntry, some "v-new", none, true, false, true, true, true⟩

/-- Witness for C7: the outdated entry is treated as a miss and the
pipeline proceeds to a direct fetch. -/
theorem c7_mismatch_is_miss_witness :
    download_from_cache false optVers0 s3WithEntry ".pdf" (some "v-new") = (false, []) ∧
    (download_file cfgS3 optVers0 netCacheMismatch "http://inst/doc.pdf" ".pdf").cacheHit
        = false ∧
    (download_file cfgS3 optVers0 netCacheMismatch "http://inst/doc.pdf" ".pdf").fetchAttempted
        = true := by
  have h := c7_mismatch_is_miss false optVers0 s3WithEntry ⟨some "v-old", some "opt-v0"⟩
    ".pdf" "v-new" rfl (Or.inl (by decide))
  have h2 := h.2 cfgS3 netCacheMismatch "http://inst/doc.pdf" rfl rfl rfl rfl
  exact ⟨h.1, h2.1, h2.2⟩

/-- Claim C10: when the content-version token for the URL is absent
(falsy), `download_from_cache` returns `false` even though the cache
holds an object under the key, and `download_file` proceeds to direct
acquisition. -/
theorem c10_falsy_meta_skips_cache (useAny : Bool) (optVers : String → String)
    (s3 : S3) (e : S3Entry) (destSuffix : String)
    (hstore : s3.entry = some e) :
    s3HasObject s3 = true ∧
    download_from_cache useAny optVers s3 destSuffix none = (false, []) ∧
    (∀ (cfg : Cfg) (net : Net) (url : String),
      cfg.s3Configured = true → cfg.useAnyOptimizedVersion = useAny →
      net.s3 = s3 → net.meta = none →
      (download_file cfg optVers net url destSuffix).cacheHit = false ∧
      (download_file cfg optVers net url destSuffix).fetchAttempted = true) := by
  have hmiss : download_from_cache useAny optVers s3 destSuffix none = (false, []) := by
    simp [download_from_cache]
  refine ⟨by simp [s3HasObject, hstore], hmiss, fun cfg net url hc hu hs hm => ?_⟩
  exact download_file_miss_fetches cfg optVers net url destSuffix
    (by rw [if_pos hc, hu, hs, hm, hmiss])

/-- External outcomes where `get_meta_from_url` yields no version token
although the cache holds an object. -/
def netNoMeta : Net := ⟨s3WithEntry, none, none, true, false, true, true, true⟩

/-- Witness for C10: absent version token, occupied cache slot — still a
miss, still a direct fetch. -/
theorem c10_falsy_meta_skips_cache_witness :
    s3HasObject s3WithEntry = true ∧
    download_from_cache false optVers0 s3WithEntry ".pdf" none = (false, []) ∧
    (download_file cfgS3 optVers0 netNoMeta "http://inst/doc.pdf" ".pdf").cacheHit
        = false ∧
    (download_file cfgS3 optVers0 netNoMeta "http://inst/doc.pdf" ".pdf").fetchAttempted
        = true := by
  have h := c10_falsy_meta_skips_cache false optVers0 s3WithEntry
    ⟨some "v-old", some "opt-v0"⟩ ".pdf" rfl
  have h2 := h.2.2 cfgS3 netNoMeta "http://inst/doc.pdf" rfl rfl rfl rfl
  exact ⟨h.1, h.2.1, h2.1, h2.2⟩

/-- Claim C8: for a downloaded video file (no cache hit, generic fetch to
the destination), the re-encode is invoked iff the source container's
extension differs from the configured target video format or the
forced-low-quality setting is active; when the container matches and low
quality is not forced, the file is stored at the destination without any
re-encode. -/
theorem c8_reencode_iff (cfg : Cfg) (optVers : String → String) (net : Net)
    (url destSuffix : String)
    (h1 : cfg.s3Configured = false) (h2 : strContains url "youtube" = false)
    (h3 : net.saveOk = true) (h4 : net.filetype = none)
    (h5 : destSuffix.drop 1 ∈ VIDEO_FORMATS) :
    ((download_file cfg optVers net url destSuffix).reencodeAttempted = true ↔
      (destSuffix.drop 1 ≠ cfg.videoFormat ∨ cfg.lowQuality = true)) ∧
    (destSuffix.drop 1 = cfg.videoFormat → cfg.lowQuality = false →
      (download_file cfg optVers net url destSuffix).reencodeAttempted = false ∧
      (download_file cfg optVers net url destSuffix).fileAtDest = true) := by
  by_cases hcond : destSuffix.drop 1 ≠ cfg.videoFormat ∨ cfg.lowQuality = true
  · constructor
    · by_cases hok : net.reencodeOk = true
      · simp [download_file, downlaod_form_url, convert_video, h1, h2, h3, h4, h5,
          hcond, hok]
      · simp only [Bool.not_eq_true] at hok
        simp [download_file, downlaod_form_url, convert_video, h1, h2, h3, h4, h5,
          hcond, hok]
    · intro he hl
      exact absurd hcond (by simp [he, hl])
  · push_neg at hcond
    obtain ⟨he, hl⟩ := hcond
    have hl2 : cfg.lowQuality = false := by
      cases hx : cfg.lowQuality with
      | false => rfl
      | true => exact absurd hx hl
    constructor
    · simp [download_file, downlaod_form_url, convert_video, h1, h2, h3, h4, h5,
        he, hl2]
    · intro _ _
      constructor
      · simp [download_file, downlaod_form_url, convert_video, h1, h2, h3, h4, h5,
          he, hl2]
      · simp [download_file, downlaod_form_url, convert_video, h1, h2, h3, h4, h5,
          he, hl2]

/-- External outcomes for a successful plain video fetch. -/
def netVideoOk : Net := ⟨⟨none, true, true⟩, none, none, true, false, true, true, true⟩

/-- Witness for C8: an `.mp4` fetch with target format `mp4` and low
quality off is stored without invoking the re-encode. -/
theorem c8_reencode_iff_witness :
    ((download_file cfgPlain optVers0 netVideoOk "http://inst/v.mp4" ".mp4").reencodeAttempted
        = false) ∧
    ((download_file cfgPlain optVers0 netVideoOk "http://inst/v.mp4" ".mp4").fileAtDest
        = true) := by
  have h := c8_reencode_iff cfgPlain optVers0 netVideoOk "http://inst/v.mp4" ".mp4"
    rfl rfl rfl rfl (by decide)
  exact h.2 (by decide) rfl

end Openedx2Zim
